import Mathlib

/-!
Shallow embedding of the db-operator DatabaseBackup controller
(src/db_backup_controller.go) together with proofs about its
reconciliation pass.

Modelling conventions:
- wall-clock instants are natural numbers (seconds); durations are
  integers in seconds, so time.Second becomes 1 and time.Minute 60;
- the external cron library (robfig/cron ParseStandard) is a parameter
  of type String -> Except String (Nat -> Nat): a parse error carries
  the diagnostic message, a parse success yields the Next function of
  the schedule;
- the job store lookup (client.Get on a batch Job) is a parameter of
  type String -> Option Job, none meaning an IsNotFound result;
- job submission failure (client.Create) is a parameter
  createErr : Option String, some e carrying the error text;
- a reconcile pass is a pure function of these parameters, one instant
  now, and the fetched DatabaseBackup; it returns the final in-memory
  status, the ordered list of statuses persisted via Status().Update,
  the list of jobs submitted, and the (ctrl.Result, error) return value.
  Store reads/writes themselves are modelled as always succeeding.
-/

namespace DbOperator

/-- Status subresource of a DatabaseBackup (api/v1alpha1 DatabaseBackupStatus). -/
structure DatabaseBackupStatus where
  lastSuccessfulBackup : Option Nat
  lastBackupStatus : String
  nextScheduledBackup : Option Nat
  failureReason : String
  activeBackupJob : String
deriving Repr, DecidableEq

/-- StorageDestinationSpec of a DatabaseBackup (api/v1alpha1). -/
structure StorageDestinationSpec where
  type : String
  bucket : String
  path : String
  pvcName : String
  secretName : String
deriving Repr, DecidableEq

/-- Spec of a DatabaseBackup (api/v1alpha1 DatabaseBackupSpec). -/
structure DatabaseBackupSpec where
  databaseType : String
  schedule : String
  backupRetention : Int
  storageDestination : StorageDestinationSpec
  databaseSelector : List (String × String)
deriving Repr, DecidableEq

/-- A DatabaseBackup resource: identity, spec and status. -/
structure DatabaseBackup where
  name : String
  ns : String
  spec : DatabaseBackupSpec
  status : DatabaseBackupStatus
deriving Repr, DecidableEq

/-- Condition type of a batch Job condition: JobComplete, JobFailed, or any
other condition type carried by the job. -/
inductive JobConditionType where
  | jobComplete
  | jobFailed
  | otherCondition
deriving Repr, DecidableEq

/-- Status of a job condition (corev1 ConditionTrue / ConditionFalse /
ConditionUnknown). -/
inductive ConditionStatus where
  | conditionTrue
  | conditionFalse
  | conditionUnknown
deriving Repr, DecidableEq

/-- One entry of job.Status.Conditions. -/
structure JobCondition where
  type : JobConditionType
  status : ConditionStatus
deriving Repr, DecidableEq

/-- Observed status of a batch Job. -/
structure JobStatus where
  conditions : List JobCondition
deriving Repr, DecidableEq

/-- Environment variable of the backup container. -/
structure EnvVar where
  name : String
  value : String
deriving Repr, DecidableEq

/-- Volume mount of the backup container. -/
structure VolumeMount where
  name : String
  mountPath : String
deriving Repr, DecidableEq

/-- Source of a pod volume: a PVC claim or a secret. -/
inductive VolumeSource where
  | persistentVolumeClaim (claimName : String)
  | secretVolume (secretName : String)
deriving Repr, DecidableEq

/-- A pod volume. -/
structure Volume where
  name : String
  source : VolumeSource
deriving Repr, DecidableEq

/-- The single container of the backup pod template. -/
structure Container where
  name : String
  image : String
  env : List EnvVar
  volumeMounts : List VolumeMount
deriving Repr, DecidableEq

/-- A batch Job: metadata, pod template content relevant to the controller,
the controller-ownership link, and observed status. -/
structure Job where
  name : String
  ns : String
  labels : List (String × String)
  restartPolicy : String
  containers : List Container
  volumes : List Volume
  ownerIsController : Bool
  status : JobStatus
deriving Repr, DecidableEq

/-- isJobComplete from src/db_backup_controller.go: the job carries a
JobComplete or JobFailed condition with status True. -/
def isJobComplete (job : Job) : Bool :=
  job.status.conditions.any fun c =>
    (c.type == JobConditionType.jobComplete || c.type == JobConditionType.jobFailed)
      && c.status == ConditionStatus.conditionTrue

/-- isJobSuccessful from src/db_backup_controller.go: the job carries a
JobComplete condition with status True. -/
def isJobSuccessful (job : Job) : Bool :=
  job.status.conditions.any fun c =>
    c.type == JobConditionType.jobComplete && c.status == ConditionStatus.conditionTrue

/-- isJobFailed from src/db_backup_controller.go: the job carries a
JobFailed condition with status True. -/
def isJobFailed (job : Job) : Bool :=
  job.status.conditions.any fun c =>
    c.type == JobConditionType.jobFailed && c.status == ConditionStatus.conditionTrue

/-- isTimeToBackup from src/db_backup_controller.go: nil means due
immediately, otherwise now is after or equal to the scheduled instant. -/
def isTimeToBackup (now : Nat) (nextScheduled : Option Nat) : Bool :=
  match nextScheduled with
  | none => true
  | some t => decide (t < now) || decide (now = t)

/-- getBackupImage from src/db_backup_controller.go: closed mapping from
database type to container image with a generic fallback. -/
def getBackupImage (dbType : String) : String :=
  if dbType = "postgres" then "ghcr.io/example/postgres-backup:latest"
  else if dbType = "mysql" then "ghcr.io/example/mysql-backup:latest"
  else if dbType = "mongodb" then "ghcr.io/example/mongodb-backup:latest"
  else "ghcr.io/example/generic-backup:latest"

/-- createBackupJob from src/db_backup_controller.go, the pure job-spec
construction part (the client.Create call is modelled in Reconcile).
The Go name carries a second-granularity wall-clock timestamp; here the
instant now itself is rendered into the name. -/
def createBackupJob (dbBackup : DatabaseBackup) (now : Nat) : Job :=
  let backupImage := getBackupImage dbBackup.spec.databaseType
  let baseContainer : Container :=
    { name := "backup"
      image := backupImage
      env := [ { name := "DB_TYPE", value := dbBackup.spec.databaseType },
               { name := "STORAGE_TYPE", value := dbBackup.spec.storageDestination.type },
               { name := "BUCKET", value := dbBackup.spec.storageDestination.bucket },
               { name := "PATH", value := dbBackup.spec.storageDestination.path } ]
      volumeMounts := [] }
  let job : Job :=
    { name := dbBackup.name ++ "-" ++ toString now
      ns := dbBackup.ns
      labels := [("app", "db-backup-operator"),
                 ("databasebackup.db.example.io/name", dbBackup.name)]
      restartPolicy := "Never"
      containers := [baseContainer]
      volumes := []
      ownerIsController := true
      status := { conditions := [] } }
  let job :=
    if dbBackup.spec.storageDestination.type = "pvc"
        ∧ dbBackup.spec.storageDestination.pvcName ≠ "" then
      { job with
        volumes := [ { name := "backup-storage"
                       source := VolumeSource.persistentVolumeClaim
                         dbBackup.spec.storageDestination.pvcName } ]
        containers := [ { baseContainer with
          volumeMounts := [ { name := "backup-storage", mountPath := "/backups" } ] } ] }
    else job
  if dbBackup.spec.storageDestination.secretName ≠ "" then
    { job with
      volumes := job.volumes ++
        [ { name := "storage-credentials"
            source := VolumeSource.secretVolume
              dbBackup.spec.storageDestination.secretName } ]
      containers :=
        match job.containers with
        | c :: rest =>
            { c with volumeMounts := c.volumeMounts ++
                [ { name := "storage-credentials", mountPath := "/credentials" } ] } :: rest
        | [] => [] }
  else job

/-- Duration of one second in model units (Go time.Second). -/
def timeSecond : Int := 1

/-- Duration of one minute in model units (Go time.Minute). -/
def timeMinute : Int := 60

/-- Requeue computation at the end of Reconcile: time.Until of the next
scheduled backup, clamped to one second when negative; one minute when no
next scheduled backup is set. -/
def requeueAfter (st : DatabaseBackupStatus) (now : Nat) : Int :=
  match st.nextScheduledBackup with
  | some t =>
      let d : Int := (t : Int) - (now : Int)
      if d < 0 then timeSecond else d
  | none => timeMinute

/-- Status bootstrap step of Reconcile: when LastBackupStatus is unset it
becomes Pending and is persisted. Returns the in-memory status and the
list of persisted writes of this step. -/
def bootstrapStatus (st : DatabaseBackupStatus) :
    DatabaseBackupStatus × List DatabaseBackupStatus :=
  if st.lastBackupStatus = "" then
    let s := { st with lastBackupStatus := "Pending" }
    (s, [s])
  else (st, [])

/-- Active-job step of Reconcile: when ActiveBackupJob is set, look the job
up; when it is absent or has reached a terminal condition, record the
outcome (Succeeded with timestamp and cleared failure reason, or Failed
with a fixed diagnostic), clear ActiveBackupJob, and persist. -/
def reconcileActiveJob (getJob : String → Option Job) (now : Nat)
    (st : DatabaseBackupStatus) :
    DatabaseBackupStatus × List DatabaseBackupStatus :=
  if st.activeBackupJob ≠ "" then
    match getJob st.activeBackupJob with
    | none =>
        let s := { st with activeBackupJob := "" }
        (s, [s])
    | some job =>
        if isJobComplete job then
          let s :=
            if isJobSuccessful job then
              { st with lastSuccessfulBackup := some now
                        lastBackupStatus := "Succeeded"
                        failureReason := ""
                        activeBackupJob := "" }
            else if isJobFailed job then
              { st with lastBackupStatus := "Failed"
                        failureReason := "Backup job failed, check job logs for details"
                        activeBackupJob := "" }
            else
              { st with activeBackupJob := "" }
          (s, [s])
        else (st, [])
  else (st, [])

/-- Next-scheduled refresh step of Reconcile: when NextScheduledBackup is
unset or differs from the freshly computed next run it is overwritten and
persisted. -/
def refreshNextScheduled (nextRun : Nat) (st : DatabaseBackupStatus) :
    DatabaseBackupStatus × List DatabaseBackupStatus :=
  if st.nextScheduledBackup = none ∨ st.nextScheduledBackup ≠ some nextRun then
    let s := { st with nextScheduledBackup := some nextRun }
    (s, [s])
  else (st, [])

/-- Return value of a reconcile pass: ok carries ctrl.Result.RequeueAfter
(an empty ctrl.Result carries 0); errorReturn models returning a non-nil
error with an empty ctrl.Result. -/
inductive ReconcileOutcome where
  | ok (requeueAfter : Int)
  | errorReturn
deriving Repr, DecidableEq

/-- Everything one reconcile pass produces: final in-memory status, the
ordered persisted status writes, the jobs submitted, and the return
value. -/
structure ReconcileOutput where
  status : DatabaseBackupStatus
  writes : List DatabaseBackupStatus
  created : List Job
  outcome : ReconcileOutcome
deriving Repr, DecidableEq

/-- Reconcile from src/db_backup_controller.go, for a fetched policy, on the
happy-path store (every Get distinguishes only found / not-found, every
status Update succeeds), with the whole pass sharing one instant now. -/
def Reconcile (parse : String → Except String (Nat → Nat))
    (getJob : String → Option Job) (createErr : Option String)
    (now : Nat) (dbBackup : DatabaseBackup) : ReconcileOutput :=
  let st1 := (bootstrapStatus dbBackup.status).1
  let w1 := (bootstrapStatus dbBackup.status).2
  let st2 := (reconcileActiveJob getJob now st1).1
  let w2 := (reconcileActiveJob getJob now st1).2
  match parse dbBackup.spec.schedule with
  | Except.error msg =>
      let s := { st2 with lastBackupStatus := "Error"
                          failureReason := "Invalid schedule: " ++ msg }
      { status := s, writes := w1 ++ w2 ++ [s], created := []
        outcome := ReconcileOutcome.ok 0 }
  | Except.ok next =>
      let nextRun := next now
      let st3 := (refreshNextScheduled nextRun st2).1
      let w3 := (refreshNextScheduled nextRun st2).2
      if st3.activeBackupJob = "" ∧ isTimeToBackup now st3.nextScheduledBackup = true then
        match createErr with
        | some e =>
            let s := { st3 with lastBackupStatus := "Error"
                                failureReason := "Failed to create backup job: " ++ e }
            { status := s, writes := w1 ++ w2 ++ w3 ++ [s], created := []
              outcome := ReconcileOutcome.errorReturn }
        | none =>
            let job := createBackupJob dbBackup now
            let st4 := { st3 with activeBackupJob := job.name
                                  lastBackupStatus := "Running" }
            let st5 := { st4 with nextScheduledBackup := some (next now) }
            { status := st5, writes := w1 ++ w2 ++ w3 ++ [st4, st5], created := [job]
              outcome := ReconcileOutcome.ok (requeueAfter st5 now) }
      else
        { status := st3, writes := w1 ++ w2 ++ w3, created := []
          outcome := ReconcileOutcome.ok (requeueAfter st3 now) }

/-! Concrete fixtures used by witnesses and counterexamples. -/

/-- A representative policy: postgres, daily schedule string, s3 destination,
status Pending with next scheduled backup at instant 100 and no active job. -/
def basePolicy : DatabaseBackup :=
  { name := "pgdb"
    ns := "default"
    spec := { databaseType := "postgres"
              schedule := "0 1 * * *"
              backupRetention := 336
              storageDestination := { type := "s3", bucket := "backups", path := "pg",
                                      pvcName := "", secretName := "creds" }
              databaseSelector := [("app", "postgres")] }
    status := { lastSuccessfulBackup := none
                lastBackupStatus := "Pending"
                nextScheduledBackup := some 100
                failureReason := ""
                activeBackupJob := "" } }

/-- A schedule whose next trigger is always one minute after the given
instant, standing for a parse success of a one-minute cron schedule. -/
def everyMinute : String → Except String (Nat → Nat) :=
  fun _ => Except.ok fun t => t + 60

/-- A job store in which every lookup reports not-found. -/
def noJobStore : String → Option Job := fun _ => none

/-- A cron parser rejecting every schedule string, standing for
cron.ParseStandard on a malformed expression. -/
def badParse : String → Except String (Nat → Nat) :=
  fun _ => Except.error "expected exactly 5 fields"

/-! Helper lemmas about the individual steps of the pass. -/

/-- Bootstrap never touches ActiveBackupJob. -/
theorem bootstrapStatus_active (st : DatabaseBackupStatus) :
    (bootstrapStatus st).1.activeBackupJob = st.activeBackupJob := by
  unfold bootstrapStatus; split <;> rfl

/-- Bootstrap never touches NextScheduledBackup. -/
theorem bootstrapStatus_next (st : DatabaseBackupStatus) :
    (bootstrapStatus st).1.nextScheduledBackup = st.nextScheduledBackup := by
  unfold bootstrapStatus; split <;> rfl

/-- Every status persisted by the bootstrap step keeps NextScheduledBackup. -/
theorem bootstrapStatus_writes_next (st : DatabaseBackupStatus) :
    ∀ w ∈ (bootstrapStatus st).2, w.nextScheduledBackup = st.nextScheduledBackup := by
  intro w hw
  unfold bootstrapStatus at hw
  split at hw
  · simp at hw; subst hw; rfl
  · simp at hw

/-- Bootstrap is the identity when LastBackupStatus is already set. -/
theorem bootstrapStatus_eq_of_ne (st : DatabaseBackupStatus)
    (h : st.lastBackupStatus ≠ "") : bootstrapStatus st = (st, []) := by
  unfold bootstrapStatus; rw [if_neg h]

/-- The active-job step is the identity when no job reference is set. -/
theorem reconcileActiveJob_eq_of_noActive (g : String → Option Job) (now : Nat)
    (st : DatabaseBackupStatus) (h : st.activeBackupJob = "") :
    reconcileActiveJob g now st = (st, []) := by
  unfold reconcileActiveJob; rw [if_neg (by simp [h])]

/-- The active-job step never touches NextScheduledBackup. -/
theorem reconcileActiveJob_next (g : String → Option Job) (now : Nat)
    (st : DatabaseBackupStatus) :
    (reconcileActiveJob g now st).1.nextScheduledBackup = st.nextScheduledBackup := by
  simp only [reconcileActiveJob]
  repeat' split
  all_goals rfl

/-- Every status persisted by the active-job step keeps NextScheduledBackup. -/
theorem reconcileActiveJob_writes_next (g : String → Option Job) (now : Nat)
    (st : DatabaseBackupStatus) :
    ∀ w ∈ (reconcileActiveJob g now st).2,
      w.nextScheduledBackup = st.nextScheduledBackup := by
  intro w hw
  simp only [reconcileActiveJob] at hw
  repeat' split at hw
  all_goals simp at hw
  all_goals (subst hw; rfl)

/-- On an absent job the active-job step only clears the job reference and
persists exactly that status. -/
theorem reconcileActiveJob_absent_eq (g : String → Option Job) (now : Nat)
    (st : DatabaseBackupStatus) (ha : st.activeBackupJob ≠ "")
    (hj : g st.activeBackupJob = none) :
    reconcileActiveJob g now st =
      ({ st with activeBackupJob := "" }, [{ st with activeBackupJob := "" }]) := by
  unfold reconcileActiveJob
  rw [if_pos ha, hj]

/-- A successful job is complete. -/
theorem isJobComplete_of_isJobSuccessful (job : Job)
    (h : isJobSuccessful job = true) : isJobComplete job = true := by
  simp only [isJobSuccessful, List.any_eq_true, Bool.and_eq_true, beq_iff_eq] at h
  obtain ⟨c, hc, h1, h2⟩ := h
  simp only [isJobComplete, List.any_eq_true, Bool.and_eq_true, Bool.or_eq_true, beq_iff_eq]
  exact ⟨c, hc, Or.inl h1, h2⟩

/-- On a found successful job the active-job step records Succeeded with the
timestamp, clears the failure reason and the job reference, and persists
exactly that status. -/
theorem reconcileActiveJob_success_eq (g : String → Option Job) (now : Nat)
    (st : DatabaseBackupStatus) (job : Job) (ha : st.activeBackupJob ≠ "")
    (hj : g st.activeBackupJob = some job) (hs : isJobSuccessful job = true) :
    reconcileActiveJob g now st =
      ({ st with lastSuccessfulBackup := some now, lastBackupStatus := "Succeeded",
                 failureReason := "", activeBackupJob := "" },
       [{ st with lastSuccessfulBackup := some now, lastBackupStatus := "Succeeded",
                  failureReason := "", activeBackupJob := "" }]) := by
  unfold reconcileActiveJob
  rw [if_pos ha, hj]
  simp only [isJobComplete_of_isJobSuccessful job hs, hs, if_true]

/-- The refresh step always leaves NextScheduledBackup equal to the freshly
computed next run and changes nothing else. -/
theorem refreshNextScheduled_fst (n : Nat) (st : DatabaseBackupStatus) :
    (refreshNextScheduled n st).1 = { st with nextScheduledBackup := some n } := by
  unfold refreshNextScheduled
  split
  · rfl
  · rename_i h
    push_neg at h
    obtain ⟨-, h2⟩ := h
    cases st
    simp_all

/-- Every status persisted by the refresh step is the input with
NextScheduledBackup overwritten. -/
theorem refreshNextScheduled_writes (n : Nat) (st : DatabaseBackupStatus) :
    ∀ w ∈ (refreshNextScheduled n st).2,
      w = { st with nextScheduledBackup := some n } := by
  intro w hw
  unfold refreshNextScheduled at hw
  split at hw
  · simpa using hw
  · simp at hw

/-- A strictly future scheduled instant is not yet due. -/
theorem isTimeToBackup_future (now t : Nat) (h : now < t) :
    isTimeToBackup now (some t) = false := by
  simp only [isTimeToBackup, Bool.or_eq_false_iff, decide_eq_false_iff_not]
  omega

/-- When the schedule parses and its next trigger lies strictly in the
future, the pass runs bootstrap, active-job reconciliation and the refresh,
and then returns without creating any job: the trigger test compares now
against the next run just written, which is still ahead. -/
theorem Reconcile_eq_of_future (pa : String → Except String (Nat → Nat))
    (g : String → Option Job) (ce : Option String) (now : Nat)
    (p : DatabaseBackup) (f : Nat → Nat)
    (hp : pa p.spec.schedule = Except.ok f) (hf : now < f now) :
    Reconcile pa g ce now p =
      { status := (refreshNextScheduled (f now)
            (reconcileActiveJob g now (bootstrapStatus p.status).1).1).1
        writes := (bootstrapStatus p.status).2 ++
          (reconcileActiveJob g now (bootstrapStatus p.status).1).2 ++
          (refreshNextScheduled (f now)
            (reconcileActiveJob g now (bootstrapStatus p.status).1).1).2
        created := []
        outcome := ReconcileOutcome.ok (requeueAfter
          (refreshNextScheduled (f now)
            (reconcileActiveJob g now (bootstrapStatus p.status).1).1).1 now) } := by
  have hnext := refreshNextScheduled_fst (f now)
    (reconcileActiveJob g now (bootstrapStatus p.status).1).1
  simp only [Reconcile, hp]
  rw [if_neg]
  rintro ⟨-, htime⟩
  rw [hnext] at htime
  simp only [isTimeToBackup_future now (f now) hf] at htime
  exact Bool.false_ne_true htime

/-- Claim C10: isJobComplete holds exactly when isJobSuccessful or
isJobFailed holds: the terminal-condition predicate is the disjunction of
the success and failure predicates over the job conditions. -/
theorem C10_complete_iff_success_or_failed (job : Job) :
    isJobComplete job = (isJobSuccessful job || isJobFailed job) := by
  simp only [isJobComplete, isJobSuccessful, isJobFailed]
  induction job.status.conditions with
  | nil => rfl
  | cons c cs ih =>
      simp only [List.any_cons, ih]
      cases hc : c.type == JobConditionType.jobComplete <;>
        cases hf : c.type == JobConditionType.jobFailed <;>
          cases hs : c.status == ConditionStatus.conditionTrue <;>
            simp [Bool.or_assoc, Bool.or_comm, Bool.or_left_comm]

/-- Claim C8: image selection is a total mapping: postgres, mysql and
mongodb map to their dedicated backup images and every other database type
maps to the generic fallback image. -/
theorem C8_image_mapping :
    getBackupImage "postgres" = "ghcr.io/example/postgres-backup:latest" ∧
    getBackupImage "mysql" = "ghcr.io/example/mysql-backup:latest" ∧
    getBackupImage "mongodb" = "ghcr.io/example/mongodb-backup:latest" ∧
    ∀ dbType : String, dbType ≠ "postgres" → dbType ≠ "mysql" →
      dbType ≠ "mongodb" →
      getBackupImage dbType = "ghcr.io/example/generic-backup:latest" := by
  refine ⟨by decide, by decide, by decide, ?_⟩
  intro dbType h1 h2 h3
  unfold getBackupImage
  rw [if_neg h1, if_neg h2, if_neg h3]

/-- Witness for C8: an unknown database type gets the generic image. -/
theorem C8_witness :
    ("redis" : String) ≠ "postgres" ∧
    getBackupImage "redis" = "ghcr.io/example/generic-backup:latest" :=
  ⟨by decide, C8_image_mapping.2.2.2 "redis" (by decide) (by decide) (by decide)⟩

/-- On a schedule parse failure the pass marks the in-memory status as Error
with the diagnostic, persists it as a final write, creates nothing, and
returns a nil error with RequeueAfter 0. -/
theorem Reconcile_eq_of_error (pa : String → Except String (Nat → Nat))
    (g : String → Option Job) (ce : Option String) (now : Nat)
    (p : DatabaseBackup) (msg : String)
    (hp : pa p.spec.schedule = Except.error msg) :
    Reconcile pa g ce now p =
      { status := { (reconcileActiveJob g now (bootstrapStatus p.status).1).1 with
                    lastBackupStatus := "Error"
                    failureReason := "Invalid schedule: " ++ msg }
        writes := (bootstrapStatus p.status).2 ++
          (reconcileActiveJob g now (bootstrapStatus p.status).1).2 ++
          [{ (reconcileActiveJob g now (bootstrapStatus p.status).1).1 with
             lastBackupStatus := "Error"
             failureReason := "Invalid schedule: " ++ msg }]
        created := []
        outcome := ReconcileOutcome.ok 0 } := by
  simp only [Reconcile, hp]

/-- Claim C3 (amended): on a schedule parse failure the pass sets
LastBackupStatus to Error with a non-empty diagnostic, persists that status,
creates no job, and returns a nil error with an empty ctrl.Result, i.e. a
zero requeue delay rather than the one-minute default. -/
theorem C3_invalid_schedule (pa : String → Except String (Nat → Nat))
    (g : String → Option Job) (ce : Option String) (now : Nat)
    (p : DatabaseBackup) (msg : String)
    (hp : pa p.spec.schedule = Except.error msg) :
    (Reconcile pa g ce now p).status.lastBackupStatus = "Error" ∧
    (Reconcile pa g ce now p).status.failureReason ≠ "" ∧
    (Reconcile pa g ce now p).created = [] ∧
    (Reconcile pa g ce now p).status ∈ (Reconcile pa g ce now p).writes ∧
    (Reconcile pa g ce now p).outcome = ReconcileOutcome.ok 0 := by
  rw [Reconcile_eq_of_error pa g ce now p msg hp]
  refine ⟨rfl, ?_, rfl, by simp, rfl⟩
  intro h
  have hlen := congrArg String.length h
  rw [String.length_append] at hlen
  have h18 : ("Invalid schedule: ").length = 18 := by decide
  have h0 : ("" : String).length = 0 := rfl
  rw [h18, h0] at hlen
  omega

/-- Counterexample for C3 as stated: at a malformed schedule the pass
returns RequeueAfter 0 (an empty ctrl.Result), not the one-minute default
requeue delay the claim demands. -/
theorem C3_counterexample :
    (Reconcile badParse noJobStore none 10 basePolicy).outcome =
      ReconcileOutcome.ok 0 ∧
    ReconcileOutcome.ok 0 ≠ ReconcileOutcome.ok timeMinute ∧
    (Reconcile badParse noJobStore none 10 basePolicy).status.lastBackupStatus
      = "Error" := by
  refine ⟨rfl, by decide, rfl⟩

/-- Witness for C3: the amended claim at a concrete malformed schedule. -/
theorem C3_witness :
    (Reconcile badParse noJobStore none 10 basePolicy).status.lastBackupStatus = "Error" ∧
    (Reconcile badParse noJobStore none 10 basePolicy).status.failureReason ≠ "" ∧
    (Reconcile badParse noJobStore none 10 basePolicy).created = [] ∧
    (Reconcile badParse noJobStore none 10 basePolicy).status ∈
      (Reconcile badParse noJobStore none 10 basePolicy).writes ∧
    (Reconcile badParse noJobStore none 10 basePolicy).outcome = ReconcileOutcome.ok 0 :=
  C3_invalid_schedule badParse noJobStore none 10 basePolicy
    "expected exactly 5 fields" rfl

/-- Every status persisted by the active-job step is persisted by the whole
pass, whatever the schedule, trigger and creation outcome. -/
theorem mem_writes_of_mem_activeStep (pa : String → Except String (Nat → Nat))
    (g : String → Option Job) (ce : Option String) (now : Nat)
    (p : DatabaseBackup) (w : DatabaseBackupStatus)
    (hw : w ∈ (reconcileActiveJob g now (bootstrapStatus p.status).1).2) :
    w ∈ (Reconcile pa g ce now p).writes := by
  cases hpa : pa p.spec.schedule with
  | error msg =>
      rw [Reconcile_eq_of_error pa g ce now p msg hpa]
      simp only [List.mem_append]
      tauto
  | ok f =>
      simp only [Reconcile, hpa]
      split
      · split
        · simp only [List.mem_append]; tauto
        · simp only [List.mem_append]; tauto
      · simp only [List.mem_append]; tauto

/-- Claim C5: when the active job is found and carries a successful terminal
condition, the pass persists a status with LastSuccessfulBackup set to now,
LastBackupStatus Succeeded, FailureReason cleared and ActiveBackupJob
cleared. -/
theorem C5_job_succeeded (pa : String → Except String (Nat → Nat))
    (g : String → Option Job) (ce : Option String) (now : Nat)
    (p : DatabaseBackup) (job : Job)
    (ha : p.status.activeBackupJob ≠ "")
    (hj : g p.status.activeBackupJob = some job)
    (hs : isJobSuccessful job = true) :
    ∃ w ∈ (Reconcile pa g ce now p).writes,
      w.lastSuccessfulBackup = some now ∧ w.lastBackupStatus = "Succeeded" ∧
      w.failureReason = "" ∧ w.activeBackupJob = "" := by
  have hact := bootstrapStatus_active p.status
  have ha1 : (bootstrapStatus p.status).1.activeBackupJob ≠ "" := by
    rw [hact]; exact ha
  have hj1 : g (bootstrapStatus p.status).1.activeBackupJob = some job := by
    rw [hact]; exact hj
  have hstep := reconcileActiveJob_success_eq g now (bootstrapStatus p.status).1
    job ha1 hj1 hs
  exact ⟨{ (bootstrapStatus p.status).1 with
             lastSuccessfulBackup := some now
             lastBackupStatus := "Succeeded"
             failureReason := ""
             activeBackupJob := "" },
    mem_writes_of_mem_activeStep pa g ce now p _ (by rw [hstep]; simp),
    rfl, rfl, rfl, rfl⟩

/-- A policy with a running job reference whose job completed successfully. -/
def succPolicy : DatabaseBackup :=
  { basePolicy with status := { lastSuccessfulBackup := none
                                lastBackupStatus := "Running"
                                nextScheduledBackup := some 100
                                failureReason := "old reason"
                                activeBackupJob := "pgdb-20240101" } }

/-- A job store returning a job that carries only a JobComplete condition
with status True. -/
def succJobStore : String → Option Job :=
  fun _ => some
    { name := "pgdb-20240101", ns := "default", labels := [],
      restartPolicy := "Never", containers := [], volumes := [],
      ownerIsController := true,
      status := { conditions := [ { type := JobConditionType.jobComplete,
                                    status := ConditionStatus.conditionTrue } ] } }

/-- Witness for C5 at a concrete successful job. -/
theorem C5_witness :
    ∃ w ∈ (Reconcile everyMinute succJobStore none 50 succPolicy).writes,
      w.lastSuccessfulBackup = some 50 ∧ w.lastBackupStatus = "Succeeded" ∧
      w.failureReason = "" ∧ w.activeBackupJob = "" :=
  C5_job_succeeded everyMinute succJobStore none 50 succPolicy
    { name := "pgdb-20240101", ns := "default", labels := [],
      restartPolicy := "Never", containers := [], volumes := [],
      ownerIsController := true,
      status := { conditions := [ { type := JobConditionType.jobComplete,
                                    status := ConditionStatus.conditionTrue } ] } }
    (by decide) rfl (by decide)

/-- Claim C9: when the active job is found carrying both a JobComplete
condition with status True and a JobFailed condition with status True, the
active-job step records Succeeded (not Failed): the success branch takes
precedence, even though isJobFailed also holds. -/
theorem C9_success_precedence (pa : String → Except String (Nat → Nat))
    (g : String → Option Job) (ce : Option String) (now : Nat)
    (p : DatabaseBackup) (job : Job)
    (ha : p.status.activeBackupJob ≠ "")
    (hj : g p.status.activeBackupJob = some job)
    (hcomplete : ∃ c ∈ job.status.conditions,
      c.type = JobConditionType.jobComplete ∧ c.status = ConditionStatus.conditionTrue)
    (hfailed : ∃ c ∈ job.status.conditions,
      c.type = JobConditionType.jobFailed ∧ c.status = ConditionStatus.conditionTrue) :
    isJobFailed job = true ∧
    (reconcileActiveJob g now (bootstrapStatus p.status).1).1.lastBackupStatus
      = "Succeeded" ∧
    ∃ w ∈ (Reconcile pa g ce now p).writes,
      w.lastBackupStatus = "Succeeded" ∧ w.lastSuccessfulBackup = some now ∧
      w.failureReason = "" ∧ w.activeBackupJob = "" := by
  have hs : isJobSuccessful job = true := by
    simp only [isJobSuccessful, List.any_eq_true, Bool.and_eq_true, beq_iff_eq]
    obtain ⟨c, hc, h1, h2⟩ := hcomplete
    exact ⟨c, hc, h1, h2⟩
  have hfl : isJobFailed job = true := by
    simp only [isJobFailed, List.any_eq_true, Bool.and_eq_true, beq_iff_eq]
    obtain ⟨c, hc, h1, h2⟩ := hfailed
    exact ⟨c, hc, h1, h2⟩
  have hact := bootstrapStatus_active p.status
  have ha1 : (bootstrapStatus p.status).1.activeBackupJob ≠ "" := by
    rw [hact]; exact ha
  have hj1 : g (bootstrapStatus p.status).1.activeBackupJob = some job := by
    rw [hact]; exact hj
  have hstep := reconcileActiveJob_success_eq g now (bootstrapStatus p.status).1
    job ha1 hj1 hs
  exact ⟨hfl, by rw [hstep],
    { (bootstrapStatus p.status).1 with
        lastSuccessfulBackup := some now
        lastBackupStatus := "Succeeded"
        failureReason := ""
        activeBackupJob := "" },
    mem_writes_of_mem_activeStep pa g ce now p _ (by rw [hstep]; simp),
    rfl, rfl, rfl, rfl⟩

/-- A job store returning a job that carries both a JobComplete and a
JobFailed condition with status True. -/
def bothCondJobStore : String → Option Job :=
  fun _ => some
    { name := "pgdb-20240101", ns := "default", labels := [],
      restartPolicy := "Never", containers := [], volumes := [],
      ownerIsController := true,
      status := { conditions := [ { type := JobConditionType.jobFailed,
                                    status := ConditionStatus.conditionTrue },
                                  { type := JobConditionType.jobComplete,
                                    status := ConditionStatus.conditionTrue } ] } }

/-- Witness for C9 at a concrete job carrying both terminal conditions. -/
theorem C9_witness :
    isJobFailed
      { name := "pgdb-20240101", ns := "default", labels := [],
        restartPolicy := "Never", containers := [], volumes := [],
        ownerIsController := true,
        status := { conditions := [ { type := JobConditionType.jobFailed,
                                      status := ConditionStatus.conditionTrue },
                                    { type := JobConditionType.jobComplete,
                                      status := ConditionStatus.conditionTrue } ] } } = true ∧
    (reconcileActiveJob bothCondJobStore 50
      (bootstrapStatus succPolicy.status).1).1.lastBackupStatus = "Succeeded" ∧
    ∃ w ∈ (Reconcile everyMinute bothCondJobStore none 50 succPolicy).writes,
      w.lastBackupStatus = "Succeeded" ∧ w.lastSuccessfulBackup = some 50 ∧
      w.failureReason = "" ∧ w.activeBackupJob = "" :=
  C9_success_precedence everyMinute bothCondJobStore none 50 succPolicy
    { name := "pgdb-20240101", ns := "default", labels := [],
      restartPolicy := "Never", containers := [], volumes := [],
      ownerIsController := true,
      status := { conditions := [ { type := JobConditionType.jobFailed,
                                    status := ConditionStatus.conditionTrue },
                                  { type := JobConditionType.jobComplete,
                                    status := ConditionStatus.conditionTrue } ] } }
    (by decide) rfl
    ⟨{ type := JobConditionType.jobComplete, status := ConditionStatus.conditionTrue },
      by decide, rfl, rfl⟩
    ⟨{ type := JobConditionType.jobFailed, status := ConditionStatus.conditionTrue },
      by decide, rfl, rfl⟩

/-- Claim C6 (amended): for a policy whose LastBackupStatus is already set
and whose schedule parses with a strictly-future next trigger, when the
active job lookup reports the job absent, the pass persists exactly the
prior status with ActiveBackupJob cleared and finishes with
LastBackupStatus, FailureReason and LastSuccessfulBackup unchanged,
ActiveBackupJob empty, and no job created. -/
theorem C6_job_absent_frame (pa : String → Except String (Nat → Nat))
    (g : String → Option Job) (ce : Option String) (now : Nat)
    (p : DatabaseBackup) (f : Nat → Nat)
    (hst : p.status.lastBackupStatus ≠ "")
    (ha : p.status.activeBackupJob ≠ "")
    (hj : g p.status.activeBackupJob = none)
    (hp : pa p.spec.schedule = Except.ok f)
    (hf : ∀ t, t < f t) :
    ({ p.status with activeBackupJob := "" } ∈ (Reconcile pa g ce now p).writes) ∧
    (Reconcile pa g ce now p).status.activeBackupJob = "" ∧
    (Reconcile pa g ce now p).status.lastBackupStatus = p.status.lastBackupStatus ∧
    (Reconcile pa g ce now p).status.failureReason = p.status.failureReason ∧
    (Reconcile pa g ce now p).status.lastSuccessfulBackup
      = p.status.lastSuccessfulBackup ∧
    (Reconcile pa g ce now p).created = [] := by
  have hb := bootstrapStatus_eq_of_ne p.status hst
  rw [Reconcile_eq_of_future pa g ce now p f hp (hf now)]
  simp only [hb, reconcileActiveJob_absent_eq g now p.status ha hj,
    refreshNextScheduled_fst]
  simp

/-- A policy with a running status and a stale job reference that resolves
to an absent job. -/
def stalePolicy : DatabaseBackup :=
  { basePolicy with status := { lastSuccessfulBackup := some 5
                                lastBackupStatus := "Running"
                                nextScheduledBackup := some 100
                                failureReason := ""
                                activeBackupJob := "pgdb-gone" } }

/-- Witness for C6 at a concrete stale job reference. -/
theorem C6_witness :
    ({ stalePolicy.status with activeBackupJob := "" }
        ∈ (Reconcile everyMinute noJobStore none 10 stalePolicy).writes) ∧
    (Reconcile everyMinute noJobStore none 10 stalePolicy).status.activeBackupJob = "" ∧
    (Reconcile everyMinute noJobStore none 10 stalePolicy).status.lastBackupStatus
      = stalePolicy.status.lastBackupStatus ∧
    (Reconcile everyMinute noJobStore none 10 stalePolicy).status.failureReason
      = stalePolicy.status.failureReason ∧
    (Reconcile everyMinute noJobStore none 10 stalePolicy).status.lastSuccessfulBackup
      = stalePolicy.status.lastSuccessfulBackup ∧
    (Reconcile everyMinute noJobStore none 10 stalePolicy).created = [] :=
  C6_job_absent_frame everyMinute noJobStore none 10 stalePolicy (fun t => t + 60)
    (by decide) (by decide) rfl rfl
    (fun t => Nat.lt_add_of_pos_right (by decide))

/-- A policy like stalePolicy but with LastBackupStatus still unset. -/
def staleEmptyPolicy : DatabaseBackup :=
  { basePolicy with status := { lastSuccessfulBackup := none
                                lastBackupStatus := ""
                                nextScheduledBackup := some 100
                                failureReason := ""
                                activeBackupJob := "pgdb-gone" } }

/-- Counterexample for C6 as stated: when the prior LastBackupStatus is
empty, the pass bootstraps it to Pending, so it does not remain unchanged
even though the active job was absent. -/
theorem C6_counterexample :
    staleEmptyPolicy.status.activeBackupJob ≠ "" ∧
    noJobStore staleEmptyPolicy.status.activeBackupJob = none ∧
    staleEmptyPolicy.status.lastBackupStatus = "" ∧
    (Reconcile everyMinute noJobStore none 10 staleEmptyPolicy).status.lastBackupStatus
      = "Pending" ∧
    ("Pending" : String) ≠ "" := by
  exact ⟨by decide, rfl, rfl, by decide, by decide⟩

/-- Claim C1 (code bug): for a policy with no active job, a parsing schedule
whose next trigger is always strictly in the future (as for a real cron
schedule), and a due or unset NextScheduledBackup, the pass creates NO job
and leaves ActiveBackupJob empty: the trigger check compares now against
the refreshed NextScheduledBackup, which was just overwritten with the
strictly-future next run. -/
theorem C1_due_policy_creates_no_job (pa : String → Except String (Nat → Nat))
    (g : String → Option Job) (ce : Option String) (now : Nat)
    (p : DatabaseBackup) (f : Nat → Nat)
    (hactive : p.status.activeBackupJob = "")
    (hp : pa p.spec.schedule = Except.ok f)
    (hf : ∀ t, t < f t)
    (_hdue : ∀ v, p.status.nextScheduledBackup = some v → v ≤ now) :
    (Reconcile pa g ce now p).created = [] ∧
    (Reconcile pa g ce now p).status.activeBackupJob = "" ∧
    (Reconcile pa g ce now p).status.nextScheduledBackup = some (f now) := by
  have h1 : (bootstrapStatus p.status).1.activeBackupJob = "" := by
    rw [bootstrapStatus_active]; exact hactive
  have h2 := reconcileActiveJob_eq_of_noActive g now (bootstrapStatus p.status).1 h1
  rw [Reconcile_eq_of_future pa g ce now p f hp (hf now)]
  simp only [h2, refreshNextScheduled_fst]
  simp [h1]

/-- Witness for C1: basePolicy is due at instant 100 (its
NextScheduledBackup is 100), yet the pass creates no job and advances
NextScheduledBackup to 160. -/
theorem C1_witness :
    (Reconcile everyMinute noJobStore none 100 basePolicy).created = [] ∧
    (Reconcile everyMinute noJobStore none 100 basePolicy).status.activeBackupJob = "" ∧
    (Reconcile everyMinute noJobStore none 100 basePolicy).status.nextScheduledBackup
      = some 160 :=
  C1_due_policy_creates_no_job everyMinute noJobStore none 100 basePolicy
    (fun t => t + 60) rfl rfl
    (fun t => Nat.lt_add_of_pos_right (by decide))
    (fun v hv => by injection hv with h; omega)

/-- Claim C4 (amended): on every pass whose schedule parses (with a
strictly-future next trigger), NextScheduledBackup ends set to that next
trigger and the returned requeue delay equals
max(NextScheduledBackup - now, one second), which is strictly positive. -/
theorem C4_requeue_valid_schedule (pa : String → Except String (Nat → Nat))
    (g : String → Option Job) (ce : Option String) (now : Nat)
    (p : DatabaseBackup) (f : Nat → Nat)
    (hp : pa p.spec.schedule = Except.ok f)
    (hf : ∀ t, t < f t) :
    (Reconcile pa g ce now p).status.nextScheduledBackup = some (f now) ∧
    (Reconcile pa g ce now p).outcome =
      ReconcileOutcome.ok (max ((f now : Int) - (now : Int)) timeSecond) ∧
    0 < max ((f now : Int) - (now : Int)) timeSecond := by
  have hlt : (now : Int) < (f now : Int) := by exact_mod_cast hf now
  rw [Reconcile_eq_of_future pa g ce now p f hp (hf now)]
  simp only [refreshNextScheduled_fst]
  refine ⟨trivial, ?_, ?_⟩
  · congr 1
    simp only [requeueAfter]
    rw [if_neg (by omega)]
    rw [max_eq_left (by simp only [timeSecond]; omega)]
  · rw [lt_max_iff]
    exact Or.inr (by simp only [timeSecond]; omega)

/-- Counterexample for C4 as stated: a pass that completes without error on
a malformed schedule, with NextScheduledBackup set to 100 and now = 10,
returns RequeueAfter 0 instead of max(100 - 10, 1) = 90. -/
theorem C4_counterexample :
    (Reconcile badParse noJobStore none 10 basePolicy).outcome
      = ReconcileOutcome.ok 0 ∧
    basePolicy.status.nextScheduledBackup = some 100 ∧
    max ((100 : Int) - (10 : Int)) timeSecond = 90 ∧
    (0 : Int) ≠ 90 := by
  exact ⟨rfl, rfl, by decide, by decide⟩

/-- Witness for C4 at a concrete valid schedule. -/
theorem C4_witness :
    (Reconcile everyMinute noJobStore none 100 basePolicy).status.nextScheduledBackup
      = some 160 ∧
    (Reconcile everyMinute noJobStore none 100 basePolicy).outcome =
      ReconcileOutcome.ok (max ((160 : Int) - (100 : Int)) timeSecond) ∧
    0 < max ((160 : Int) - (100 : Int)) timeSecond :=
  C4_requeue_valid_schedule everyMinute noJobStore none 100 basePolicy
    (fun t => t + 60) rfl
    (fun t => Nat.lt_add_of_pos_right (by decide))

/-- When the schedule parses, the final status carries the freshly computed
next run, and every status persisted during the pass carries either the
prior NextScheduledBackup of the policy or the freshly computed next run. -/
theorem Reconcile_ok_next (pa : String → Except String (Nat → Nat))
    (g : String → Option Job) (ce : Option String) (now : Nat)
    (p : DatabaseBackup) (f : Nat → Nat)
    (hp : pa p.spec.schedule = Except.ok f) :
    (Reconcile pa g ce now p).status.nextScheduledBackup = some (f now) ∧
    ∀ w ∈ (Reconcile pa g ce now p).writes,
      w.nextScheduledBackup = p.status.nextScheduledBackup ∨
      w.nextScheduledBackup = some (f now) := by
  simp only [Reconcile, hp]
  split
  · cases ce with
    | some e =>
        refine ⟨by simp [refreshNextScheduled_fst], ?_⟩
        intro w hw
        simp only [List.mem_append, List.mem_singleton] at hw
        rcases hw with ((hw | hw) | hw) | hw
        · exact Or.inl (bootstrapStatus_writes_next p.status w hw)
        · exact Or.inl (by
            rw [reconcileActiveJob_writes_next g now _ w hw, bootstrapStatus_next])
        · exact Or.inr (by rw [refreshNextScheduled_writes _ _ w hw])
        · exact Or.inr (by subst hw; simp [refreshNextScheduled_fst])
    | none =>
        refine ⟨by simp, ?_⟩
        intro w hw
        simp only [List.mem_append, List.mem_cons, List.mem_singleton,
          List.not_mem_nil, or_false] at hw
        rcases hw with ((hw | hw) | hw) | hw | hw
        · exact Or.inl (bootstrapStatus_writes_next p.status w hw)
        · exact Or.inl (by
            rw [reconcileActiveJob_writes_next g now _ w hw, bootstrapStatus_next])
        · exact Or.inr (by rw [refreshNextScheduled_writes _ _ w hw])
        · exact Or.inr (by subst hw; simp [refreshNextScheduled_fst])
        · exact Or.inr (by subst hw; simp)
  · refine ⟨by simp [refreshNextScheduled_fst], ?_⟩
    intro w hw
    simp only [List.mem_append] at hw
    rcases hw with (hw | hw) | hw
    · exact Or.inl (bootstrapStatus_writes_next p.status w hw)
    · exact Or.inl (by
        rw [reconcileActiveJob_writes_next g now _ w hw, bootstrapStatus_next])
    · exact Or.inr (by rw [refreshNextScheduled_writes _ _ w hw])

/-- Claim C2 (amended): as long as the schedule is unchanged — the stored
NextScheduledBackup was produced by the same, monotone, next-trigger
function at some instant no later than now — every status the pass persists
and the final status carry a NextScheduledBackup no earlier than the stored
value. (If the schedule is edited to an earlier cadence the controller does
move NextScheduledBackup backward; see the counterexample.) -/
theorem C2_next_monotone_fixed_schedule (pa : String → Except String (Nat → Nat))
    (g : String → Option Job) (ce : Option String) (now : Nat)
    (p : DatabaseBackup) (f : Nat → Nat) (v t0 : Nat)
    (hp : pa p.spec.schedule = Except.ok f)
    (hmono : ∀ a b, a ≤ b → f a ≤ f b)
    (hprev : p.status.nextScheduledBackup = some v)
    (ht0 : t0 ≤ now) (hv : f t0 = v) :
    (∀ w ∈ (Reconcile pa g ce now p).writes,
      ∀ u, w.nextScheduledBackup = some u → v ≤ u) ∧
    (∀ u, (Reconcile pa g ce now p).status.nextScheduledBackup = some u → v ≤ u) := by
  have hvf : v ≤ f now := hv ▸ hmono t0 now ht0
  obtain ⟨hstat, hwrites⟩ := Reconcile_ok_next pa g ce now p f hp
  constructor
  · intro w hw u hu
    rcases hwrites w hw with h | h
    · rw [hprev] at h
      rw [h] at hu
      injection hu with hh
      omega
    · rw [h] at hu
      injection hu with hh
      omega
  · intro u hu
    rw [hstat] at hu
    injection hu with hh
    omega

/-- A policy whose stored NextScheduledBackup (1000) lies beyond the next
trigger the current schedule computes. -/
def farPolicy : DatabaseBackup :=
  { basePolicy with status := { lastSuccessfulBackup := none
                                lastBackupStatus := "Pending"
                                nextScheduledBackup := some 1000
                                failureReason := ""
                                activeBackupJob := "" } }

/-- Counterexample for C2 as stated: with a stored NextScheduledBackup of
1000 and a schedule whose next trigger after instant 0 is 60 (for example
after the cron expression was edited to a faster cadence), the pass writes
60 over 1000, moving NextScheduledBackup backward. -/
theorem C2_counterexample :
    farPolicy.status.nextScheduledBackup = some 1000 ∧
    (Reconcile everyMinute noJobStore none 0 farPolicy).status.nextScheduledBackup
      = some 60 ∧
    ({ farPolicy.status with nextScheduledBackup := some 60 }
        ∈ (Reconcile everyMinute noJobStore none 0 farPolicy).writes) ∧
    (60 : Nat) < 1000 := by
  exact ⟨rfl, by decide, by decide, by decide⟩

/-- Witness for C2: basePolicy stores 100 = next trigger after instant 40;
at now = 50 every persisted NextScheduledBackup is at least 100. -/
theorem C2_witness :
    (∀ w ∈ (Reconcile everyMinute noJobStore none 50 basePolicy).writes,
      ∀ u, w.nextScheduledBackup = some u → 100 ≤ u) ∧
    (∀ u, (Reconcile everyMinute noJobStore none 50 basePolicy).status.nextScheduledBackup
      = some u → 100 ≤ u) :=
  C2_next_monotone_fixed_schedule everyMinute noJobStore none 50 basePolicy
    (fun t => t + 60) 100 40 rfl
    (fun a b h => Nat.add_le_add_right h 60) rfl (by decide) rfl

/-- Claim C7: every pass creates at most one job, and a job is created only
when ActiveBackupJob is empty at the trigger-decision point (the status
produced by the active-job step). -/
theorem C7_at_most_one_job (pa : String → Except String (Nat → Nat))
    (g : String → Option Job) (ce : Option String) (now : Nat)
    (p : DatabaseBackup) :
    (Reconcile pa g ce now p).created.length ≤ 1 ∧
    ((Reconcile pa g ce now p).created ≠ [] →
      (reconcileActiveJob g now (bootstrapStatus p.status).1).1.activeBackupJob = "") := by
  cases hpa : pa p.spec.schedule with
  | error msg =>
      rw [Reconcile_eq_of_error pa g ce now p msg hpa]
      exact ⟨by simp, fun h => absurd rfl h⟩
  | ok f =>
      simp only [Reconcile, hpa]
      split
      · rename_i htr
        have hact : (refreshNextScheduled (f now)
            (reconcileActiveJob g now (bootstrapStatus p.status).1).1).1.activeBackupJob
            = (reconcileActiveJob g now (bootstrapStatus p.status).1).1.activeBackupJob := by
          rw [refreshNextScheduled_fst]
        cases ce with
        | some e => exact ⟨by simp, fun h => absurd rfl h⟩
        | none => exact ⟨by simp, fun _ => hact ▸ htr.1⟩
      · exact ⟨by simp, fun h => absurd rfl h⟩

/-- A parse result whose next-trigger function returns instant 0, making
the refreshed NextScheduledBackup already due so the trigger can fire. -/
def instantParse : String → Except String (Nat → Nat) :=
  fun _ => Except.ok fun _ => 0

/-- Witness for C7: a pass that does create a job (non-strict schedule), in
which ActiveBackupJob was empty at the trigger-decision point. -/
theorem C7_witness :
    (Reconcile instantParse noJobStore none 100 basePolicy).created ≠ [] ∧
    (reconcileActiveJob noJobStore 100
      (bootstrapStatus basePolicy.status).1).1.activeBackupJob = "" :=
  ⟨by decide,
    (C7_at_most_one_job instantParse noJobStore none 100 basePolicy).2 (by decide)⟩

end DbOperator
